import Mathlib

/-!
Verification of the solarman-mqtt collector (`run.py`): a shallow embedding of
the token manager, data transformer, publish pipeline, daylight gate and
daemon tick, together with theorems settling the specification claims.

Python dictionaries are modelled as ordered association lists; JSON scalars as
an inductive `Scalar`; network traffic and publishes as an explicit event
trace produced by each operation, with the remote responses supplied by an
environment record.
-/

namespace Solarman

/-- A JSON scalar value as it appears in decoded API responses. -/
inductive Scalar where
  | null
  | bool (b : Bool)
  | int (n : Int)
  | num (q : Rat)
  | str (s : String)
deriving DecidableEq, Repr

/-- One entry of a `dataList`: in the API it is the JSON object
`{key, name, value}`; we model it as an ordered dict so that deletion of its
fields (as `restruct_and_separate_current_data` performs) is expressible. -/
def Triple : Type := List (String × Scalar)

instance : DecidableEq Triple := by unfold Triple; infer_instance

/-- A top-level value of a device/station response: either a scalar or the
nested list of `{key, name, value}` objects found under `dataList`. -/
inductive Val where
  | scalar (s : Scalar)
  | list (l : List Triple)
deriving DecidableEq

/-- A decoded JSON object (Python dict): ordered association list. -/
def Obj : Type := List (String × Val)

instance : DecidableEq Obj := by unfold Obj; infer_instance

/-- The flat attribute map derived from a `dataList`. -/
def AttrMap : Type := List (String × Scalar)

instance : DecidableEq AttrMap := by unfold AttrMap; infer_instance

/-- Lookup `d[k]` in an ordered dict (first match). -/
def lookup {α : Type} (d : List (String × α)) (k : String) : Option α :=
  (d.find? (fun kv => kv.1 == k)).map (fun kv => kv.2)

/-- Lookup `d.get(k, v)` with a default. -/
def lookupD {α : Type} (d : List (String × α)) (k : String) (v : α) : α :=
  (lookup d k).getD v

/-- Deletion `del d[k]`: remove a key from an ordered dict (other entries keep order). -/
def delKey {α : Type} (d : List (String × α)) (k : String) : List (String × α) :=
  d.filter (fun kv => kv.1 != k)

/-- Assignment `d[k] = v` with Python-dict semantics: overwrite in place if the
key is present, else append at the end. -/
def dictInsert {α : Type} (d : List (String × α)) (k : String) (v : α) :
    List (String × α) :=
  if d.any (fun kv => kv.1 == k) then
    d.map (fun kv => if kv.1 == k then (k, v) else kv)
  else d ++ [(k, v)]

/-- Python truthiness of a scalar. -/
def Scalar.truthy : Scalar → Bool
  | .null => false
  | .bool b => b
  | .int n => n != 0
  | .num q => q != 0
  | .str s => !s.isEmpty

/-- Python truthiness of a response value (a non-empty list is truthy). -/
def Val.truthy : Val → Bool
  | .scalar s => s.truthy
  | .list l => !l.isEmpty

/-- Identity test `v is None`. -/
def Val.isNone : Val → Bool
  | .scalar .null => true
  | _ => false

/-- Python `v == 1` for a response value (`True == 1` and `1.0 == 1` hold). -/
def pyEqOne : Val → Bool
  | .scalar (.int n) => n == 1
  | .scalar (.bool b) => b
  | .scalar (.num q) => q == 1
  | _ => false

/-- Python `int(v)` where it succeeds; `none` models the raised exception. -/
def pyInt : Val → Option Int
  | .scalar (.int n) => some n
  | .scalar (.bool b) => some (if b then 1 else 0)
  | .scalar (.num q) => some (Int.tdiv q.num q.den)
  | .scalar (.str s) => s.toInt?
  | _ => none

/-- Sanitization `name.replace(" ", "_")`: as the pattern and the replacement
are single characters, this is the character-wise substitution of every space
by an underscore. -/
def sanitize (s : String) : String :=
  ⟨s.data.map (fun c => if c = ' ' then '_' else c)⟩

/-- Process one `dataList` entry the way the transformer's loop body does:
`del i["key"]; name = i["name"].replace(" ", "_"); del i["name"];
new[name] = i["value"]`.  Returns the sanitized name, the value, and the
mutated triple; `none` models the exception raised on a malformed entry. -/
def processTriple (i : Triple) : Option (String × Scalar × Triple) :=
  if (lookup i "key").isSome then
    let i1 := delKey i "key"
    match lookup i1 "name" with
    | some (.str name) =>
      let n := sanitize name
      let i2 := delKey i1 "name"
      match lookup i2 "value" with
      | some v => some (n, v, i2)
      | none => none
    | _ => none
  else none

/-- The transformer's loop over the `dataList` entries, accumulating the new
flat dict and the list of mutated triples. -/
def processTriples : List Triple → AttrMap → Option (AttrMap × List Triple)
  | [], acc => some (acc, [])
  | i :: rest, acc =>
    match processTriple i with
    | none => none
    | some (n, v, i2) =>
      match processTriples rest (dictInsert acc n v) with
      | none => none
      | some (acc2, ts) => some (acc2, i2 :: ts)

/-- Function `restruct_and_separate_current_data(data)` from `run.py`.  Returns the new
flat attribute dict, the mutated response (with `dataList` deleted when it was
present and truthy), and the mutated triples; `none` models an uncaught
exception (malformed entry, or a truthy non-list under `dataList`). -/
def restruct_and_separate_current_data (data : Obj) :
    Option (AttrMap × Obj × List Triple) :=
  match lookup data "dataList" with
  | some dl =>
    if dl.truthy then
      match dl with
      | .list l =>
        match processTriples l [] with
        | some (m, ts) => some (m, delKey data "dataList", ts)
        | none => none
      | .scalar _ => none
    else some ([], data, [])
  | none => some ([], data, [])

/-! ## Network and publish events -/

/-- An outgoing network call made during a cycle. -/
inductive NetCall where
  | auth
  | stationRealtime (stationId : String)
  | deviceCurrentData (deviceSn : String)
deriving DecidableEq

/-- A payload handed to `mqtt.message`: either a raw response value, or the
`json.dumps` of an attribute map (one JSON-object message). -/
inductive Payload where
  | val (v : Val)
  | jsonObj (m : AttrMap)
deriving DecidableEq

/-- An observable effect of the pipeline. -/
inductive Event where
  | net (c : NetCall)
  | publish (topic : String) (p : Payload)
deriving DecidableEq

def Event.isPub : Event → Bool
  | .publish _ _ => true
  | .net _ => false

/-- The publish events of a trace, in order. -/
def pubEvents (tr : List Event) : List Event := tr.filter Event.isPub

/-- The network-call events of a trace, in order. -/
def netEvents (tr : List Event) : List Event := tr.filter (fun e => !e.isPub)

/-- The process-wide token cache: globals `cached_token` (initially `None`)
and `token_expiry` (initially `0`). -/
structure TokenCache where
  cached_token : Val
  token_expiry : Int
deriving DecidableEq

def TokenCache.init : TokenCache := ⟨.scalar .null, 0⟩

/-- The environment a cycle runs against: the current time and the decoded
responses the remote endpoints would return (`none` models a network or
decode failure, i.e. a raised exception at that call). -/
structure Env where
  now : Int
  authResponse : Option Obj
  stationResponse : String → Option Obj
  deviceResponse : String → Option Obj

/-- Result of `get_token`: the returned token, or process termination with
exit code 1 (`sys.exit(1)` in the handler). -/
inductive TokenResult where
  | ok (token : Val)
  | exit1
deriving DecidableEq

/-- Function `get_token` from `run.py`: return the cached token when it is truthy and
the current time is before `token_expiry - 300`; otherwise issue the
authentication request, install the new token (expiry from `expires_in`,
default 5183999), and on any failure log and `sys.exit(1)`. -/
def get_token (env : Env) (st : TokenCache) :
    TokenResult × TokenCache × List Event :=
  if st.cached_token.truthy && decide (env.now < st.token_expiry - 300) then
    (.ok st.cached_token, st, [])
  else
    match env.authResponse with
    | none => (.exit1, st, [.net .auth])
    | some data =>
      match lookup data "access_token" with
      | none => (.exit1, st, [.net .auth])
      | some tok =>
        match pyInt (lookupD data "expires_in" (.scalar (.int 5183999))) with
        | none => (.exit1, ⟨tok, st.token_expiry⟩, [.net .auth])
        | some e => (.ok tok, ⟨tok, env.now + e⟩, [.net .auth])

/-- The configuration fields the core consumes.  `Option` fields are those the
code reads with `config.get(key, default)`. -/
structure Config where
  url : String
  stationId : String
  inverterId : String
  loggerId : String
  fetch_station : Option Bool
  fetch_inverter : Option Bool
  fetch_logger : Option Bool
  latitude : Option Rat
  longitude : Option Rat
  sunmarginminutes : Option Int
  mqttTopic : String

/-- Outcome of one `single_run`. -/
inductive RunOutcome where
  | ok
  | exit1
  | raised
deriving DecidableEq

/-- The discard set of `single_run`. -/
def discard : List String := ["code", "msg", "requestId", "success", "dataList"]

/-- The field publishes of one module's online-branch loop:
for each `(k, v)` with `v is not None` and `k not in discard`, publish
`<topic>/<module>/<k>` with value `v`. -/
def fieldPubs (topic module : String) (data : Obj) : List Event :=
  (data.filter (fun kv => !kv.2.isNone && !discard.contains kv.1)).map
    (fun kv => Event.publish (topic ++ "/" ++ module ++ "/" ++ kv.1) (.val kv.2))

/-- The attribute-map publish of one module: one JSON-object message under
`<topic>/<module>/attributes`, only when the map is non-empty. -/
def attrPub (topic module : String) (m : AttrMap) : List Event :=
  if m.isEmpty then []
  else [Event.publish (topic ++ "/" ++ module ++ "/attributes") (.jsonObj m)]

/-- The body of `single_run` after the token has been obtained: toggle check,
fetches, transformation and branch on `deviceState`. -/
def run_body (env : Env) (cfg : Config) (token : Val) : RunOutcome × List Event :=
  if !token.truthy then (.ok, [])
  else
    let fs := cfg.fetch_station.getD true
    let fi := cfg.fetch_inverter.getD true
    let fl := cfg.fetch_logger.getD true
    if !(fs || fi || fl) then (.ok, [])
    else
      let stEv : List Event := if fs then [.net (.stationRealtime cfg.stationId)] else []
      match (if fs then env.stationResponse cfg.stationId else some []) with
      | none => (.raised, stEv)
      | some station_data =>
        let invEv : List Event := if fi then [.net (.deviceCurrentData cfg.inverterId)] else []
        match (if fi then env.deviceResponse cfg.inverterId else some []) with
        | none => (.raised, stEv ++ invEv)
        | some inverter_raw =>
          let logEv : List Event := if fl then [.net (.deviceCurrentData cfg.loggerId)] else []
          match (if fl then env.deviceResponse cfg.loggerId else some []) with
          | none => (.raised, stEv ++ invEv ++ logEv)
          | some logger_raw =>
            let nets := stEv ++ invEv ++ logEv
            match restruct_and_separate_current_data inverter_raw with
            | none => (.raised, nets)
            | some (inverter_attr, inv_mut, _) =>
              match restruct_and_separate_current_data logger_raw with
              | none => (.raised, nets)
              | some (logger_attr, log_mut, _) =>
                let topic := cfg.mqttTopic
                let inverter_state := lookupD inv_mut "deviceState" (.scalar (.int 0))
                if pyEqOne inverter_state then
                  let pubsS := if fs then fieldPubs topic "station" station_data else []
                  let pubsI := if fi then
                      fieldPubs topic "inverter" inv_mut ++ attrPub topic "inverter" inverter_attr
                    else []
                  let pubsL := if fl then
                      fieldPubs topic "logger" log_mut ++ attrPub topic "logger" logger_attr
                    else []
                  (.ok, nets ++ pubsS ++ pubsI ++ pubsL)
                else
                  (.ok, nets ++ (if fi then
                    [.publish (topic ++ "/inverter/deviceState") (.val inverter_state)]
                  else []))

/-- Function `single_run` from `run.py`: obtain a token (possibly terminating the
process), then run the fetch/transform/publish body.  Returns the outcome,
the token cache after the run, and the event trace. -/
def single_run (env : Env) (cfg : Config) (st : TokenCache) :
    RunOutcome × TokenCache × List Event :=
  match get_token env st with
  | (.exit1, st1, tr) => (.exit1, st1, tr)
  | (.ok token, st1, tr) =>
    let r := run_body env cfg token
    (r.1, st1, tr ++ r.2)

/-- Function `is_sun_active` from `run.py`, with the sunrise/sunset instants computed
by the external astronomical library given as parameters (timezone-aware
datetimes compare as absolute instants, so instants are integers here). -/
def is_sun_active (cfg : Config) (sunrise sunset now : Int) : Bool :=
  let latitude := cfg.latitude.getD 0
  let longitude := cfg.longitude.getD 0
  if latitude == 0 && longitude == 0 then true
  else
    let sun_margin_minutes := cfg.sunmarginminutes.getD 30
    let margin := sun_margin_minutes * 60
    let start_window := sunrise - margin
    let end_window := sunset + margin
    decide (start_window ≤ now) && decide (now ≤ end_window)

/-- The environment of one daemon tick: the loaded configuration (`none`
models a `load_config` failure), the sunrise/sunset pair the astronomical
library would yield (`none` models a raised exception there), and the
environment of the inner cycle. -/
structure TickEnv where
  config : Option Config
  sunTimes : Option (Int × Int)
  runEnv : Env

/-- The daylight gate as the tick evaluates it: at the (0, 0) sentinel the
library is never consulted; otherwise a library failure propagates (`none`). -/
def is_sun_active_opt (cfg : Config) (sunTimes : Option (Int × Int)) (now : Int) :
    Option Bool :=
  if cfg.latitude.getD 0 == 0 && cfg.longitude.getD 0 == 0 then some true
  else sunTimes.map (fun p => is_sun_active cfg p.1 p.2 now)

/-- Result of one daemon tick: slept for the interval, or process exit 1. -/
inductive TickResult where
  | slept (interval : Int)
  | exit1
deriving DecidableEq

/-- One iteration of the `daemon` loop: reload the configuration, evaluate
the daylight gate, run a cycle when active, then sleep; any error is caught,
logged, and turned into `sys.exit(1)` (a `sys.exit(1)` raised inside
`get_token` likewise ends the process with code 1). -/
def daemon_tick (tenv : TickEnv) (interval : Int) (st : TokenCache) :
    TickResult × TokenCache × List Event :=
  match tenv.config with
  | none => (.exit1, st, [])
  | some cfg =>
    match is_sun_active_opt cfg tenv.sunTimes tenv.runEnv.now with
    | none => (.exit1, st, [])
    | some false => (.slept interval, st, [])
    | some true =>
      match single_run tenv.runEnv cfg st with
      | (.ok, st1, tr) => (.slept interval, st1, tr)
      | (.exit1, st1, tr) => (.exit1, st1, tr)
      | (.raised, st1, tr) => (.exit1, st1, tr)

/-! ## Derived notions used in claim statements -/

/-- Canonical well-formed `dataList` entry `{key: k, name: n, value: v}`. -/
def mkTriple (k : Scalar) (n : String) (v : Scalar) : Triple :=
  [("key", k), ("name", .str n), ("value", v)]

/-- The attribute map the transformer is specified to build from a list of
(key, name, value) triples: sanitized name mapped to the value, key dropped. -/
def buildAttr (l : List (Scalar × String × Scalar)) : AttrMap :=
  l.foldl (fun m t => dictInsert m (sanitize t.2.1) t.2.2) []

/-- The network calls one cycle's fetch phase makes, per enabled module. -/
def netTrace (cfg : Config) : List Event :=
  (if cfg.fetch_station.getD true then [Event.net (.stationRealtime cfg.stationId)] else []) ++
  (if cfg.fetch_inverter.getD true then [Event.net (.deviceCurrentData cfg.inverterId)] else []) ++
  (if cfg.fetch_logger.getD true then [Event.net (.deviceCurrentData cfg.loggerId)] else [])

/-! ## Concrete instances used as test vectors -/

/-- A configuration with every module toggle disabled. -/
def cfgAllOff : Config :=
  { url := "api.solarmanpv.com", stationId := "123", inverterId := "INV1",
    loggerId := "LOG1", fetch_station := some false,
    fetch_inverter := some false, fetch_logger := some false,
    latitude := none, longitude := none, sunmarginminutes := none,
    mqttTopic := "solarmanpv" }

/-- A configuration with every module enabled through the defaults. -/
def cfgAllOn : Config :=
  { cfgAllOff with
    fetch_station := none
    fetch_inverter := none
    fetch_logger := none }

/-- A configuration with only the inverter module disabled. -/
def cfgNoInv : Config := { cfgAllOn with fetch_inverter := some false }

/-- A configuration at a real location (Daylight Gate engaged). -/
def cfgLoc : Config :=
  { cfgAllOn with latitude := some 52, longitude := some 5 }

/-- An online inverter response carrying a `dataList`. -/
def invOnline : Obj :=
  [("code", .scalar (.int 0)), ("deviceState", .scalar (.int 1)),
   ("power", .scalar (.int 1500)), ("note", .scalar .null),
   ("dataList", .list [mkTriple (.int 1) "Today Energy" (.str "12.3")])]

/-- The online inverter response after the transformer has consumed it. -/
def invOnlineMut : Obj :=
  [("code", .scalar (.int 0)), ("deviceState", .scalar (.int 1)),
   ("power", .scalar (.int 1500)), ("note", .scalar .null)]

/-- An offline inverter response. -/
def invOffline : Obj :=
  [("deviceState", .scalar (.int 0)), ("power", .scalar (.int 0))]

/-- A logger response without a `dataList`. -/
def loggerResp : Obj := [("sn", .scalar (.str "LOG1"))]

/-- A station realtime response. -/
def stationResp : Obj :=
  [("requestId", .scalar (.str "r1")),
   ("generationPower", .scalar (.int 3400))]

/-- An environment with working endpoints and an online inverter. -/
def envOnline : Env :=
  { now := 1000,
    authResponse := some [("access_token", .scalar (.str "tok"))],
    stationResponse := fun _ => some stationResp,
    deviceResponse := fun sn =>
      (if sn == "INV1" then some invOnline else some loggerResp) }

/-- The same environment with the inverter offline. -/
def envOffline : Env :=
  { envOnline with deviceResponse := fun sn =>
      (if sn == "INV1" then some invOffline else some loggerResp) }

/-- An environment whose authentication call fails (network/decode error). -/
def envAuthDown : Env := { envOnline with authResponse := none }

/-- An environment whose authentication response lacks `access_token`. -/
def envNoToken : Env :=
  { envOnline with authResponse := some [("msg", .scalar (.str "denied"))] }

/-- A token cache valid far beyond the safety buffer at `now = 1000`. -/
def cacheValid : TokenCache := ⟨.scalar (.str "cached"), 100000⟩

/-- A token cache whose expiry is only 100 seconds after `now = 1000`. -/
def cacheNear : TokenCache := ⟨.scalar (.str "cached"), 1100⟩

/-! ## Helper lemmas -/

theorem get_token_trace (env : Env) (st : TokenCache) :
    (get_token env st).2.2 = [] ∨ (get_token env st).2.2 = [Event.net .auth] := by
  unfold get_token
  split
  · exact Or.inl rfl
  · rcases env.authResponse with _ | data
    · exact Or.inr rfl
    · dsimp only
      rcases lookup data "access_token" with _ | tok
      · exact Or.inr rfl
      · dsimp only
        rcases pyInt (lookupD data "expires_in" (.scalar (.int 5183999))) with _ | e
        · exact Or.inr rfl
        · exact Or.inr rfl

theorem cache_cond_false {env : Env} {st : TokenCache}
    (h : ¬(st.cached_token.truthy = true ∧ env.now < st.token_expiry - 300)) :
    (st.cached_token.truthy &&
      decide (env.now < st.token_expiry - 300)) = false := by
  cases ht : st.cached_token.truthy
  · simp [ht]
  · have h2 : ¬(env.now < st.token_expiry - 300) := fun hlt => h ⟨ht, hlt⟩
    simp [ht, h2]

theorem get_token_miss {env : Env} {st : TokenCache}
    (h : ¬(st.cached_token.truthy = true ∧ env.now < st.token_expiry - 300)) :
    (get_token env st).2.2 = [Event.net .auth] := by
  unfold get_token
  rw [if_neg (by rw [cache_cond_false h]; exact Bool.false_ne_true)]
  rcases env.authResponse with _ | data
  · rfl
  · dsimp only
    rcases lookup data "access_token" with _ | tok
    · rfl
    · dsimp only
      rcases pyInt (lookupD data "expires_in" (.scalar (.int 5183999))) with _ | e
      · rfl
      · rfl

theorem pubEvents_append (a b : List Event) :
    pubEvents (a ++ b) = pubEvents a ++ pubEvents b :=
  List.filter_append ..

theorem pubEvents_nil : pubEvents [] = [] := rfl

theorem pubEvents_get_token (env : Env) (st : TokenCache) :
    pubEvents (get_token env st).2.2 = [] := by
  rcases get_token_trace env st with h | h <;> rw [h] <;> rfl

theorem single_run_ok {env : Env} {cfg : Config} {st st1 : TokenCache}
    {token : Val} {tr0 : List Event}
    (htok : get_token env st = (.ok token, st1, tr0)) :
    single_run env cfg st =
      ((run_body env cfg token).1, st1, tr0 ++ (run_body env cfg token).2) := by
  unfold single_run
  rw [htok]

theorem run_body_disabled (env : Env) (cfg : Config) (token : Val)
    (hs : cfg.fetch_station.getD true = false)
    (hi : cfg.fetch_inverter.getD true = false)
    (hl : cfg.fetch_logger.getD true = false) :
    run_body env cfg token = (.ok, []) := by
  unfold run_body
  rcases h : token.truthy
  · simp [h]
  · simp [h, hs, hi, hl]

theorem lookup_cons {α : Type} (kv : String × α) (rest : List (String × α))
    (k : String) :
    lookup (kv :: rest) k = if kv.1 = k then some kv.2 else lookup rest k := by
  by_cases h : kv.1 = k
  · unfold lookup
    rw [List.find?_cons_of_pos _ (by simpa using h), if_pos h]
    rfl
  · unfold lookup
    rw [List.find?_cons_of_neg _ (by simpa using h), if_neg h]

theorem delKey_cons {α : Type} (kv : String × α) (rest : List (String × α))
    (k' : String) :
    delKey (kv :: rest) k' =
      if kv.1 = k' then delKey rest k' else kv :: delKey rest k' := by
  by_cases h : kv.1 = k' <;> simp [delKey, List.filter_cons, h]

theorem lookup_delKey {α : Type} (d : List (String × α)) (k k' : String)
    (h : k ≠ k') : lookup (delKey d k') k = lookup d k := by
  induction d with
  | nil => rfl
  | cons kv rest ih =>
    by_cases h1 : kv.1 = k'
    · rw [delKey_cons, if_pos h1, ih, lookup_cons,
        if_neg (by rw [h1]; exact Ne.symm h)]
    · rw [delKey_cons, if_neg h1, lookup_cons, lookup_cons]
      by_cases h2 : kv.1 = k
      · rw [if_pos h2, if_pos h2]
      · rw [if_neg h2, if_neg h2, ih]

theorem lookupD_delKey {α : Type} (d : List (String × α)) (k k' : String)
    (v : α) (h : k ≠ k') : lookupD (delKey d k') k v = lookupD d k v := by
  unfold lookupD
  rw [lookup_delKey d k k' h]

theorem restruct_mut {data : Obj} {m : AttrMap} {d' : Obj} {ts : List Triple}
    (h : restruct_and_separate_current_data data = some (m, d', ts)) :
    d' = data ∨ d' = delKey data "dataList" := by
  unfold restruct_and_separate_current_data at h
  split at h
  · split at h
    · split at h
      · split at h
        · simp only [Option.some_inj, Prod.mk.injEq] at h
          exact Or.inr h.2.1.symm
        · exact absurd h (by simp)
      · exact absurd h (by simp)
    · simp only [Option.some_inj, Prod.mk.injEq] at h
      exact Or.inl h.2.1.symm
  · simp only [Option.some_inj, Prod.mk.injEq] at h
    exact Or.inl h.2.1.symm

theorem fieldPubs_delKey (topic module : String) (d : Obj) :
    fieldPubs topic module (delKey d "dataList") = fieldPubs topic module d := by
  unfold fieldPubs delKey
  congr 1
  rw [List.filter_filter]
  apply List.filter_congr
  intro kv _
  by_cases h : kv.1 = "dataList"
  · have hc : discard.contains kv.1 = true := by rw [h]; rfl
    rw [hc]
    simp
  · have hb : (kv.1 != "dataList") = true := by simpa using h
    rw [hb]
    simp

theorem pubEvents_fieldPubs (topic module : String) (d : Obj) :
    pubEvents (fieldPubs topic module d) = fieldPubs topic module d := by
  apply List.filter_eq_self.mpr
  intro e he
  unfold fieldPubs at he
  rcases List.mem_map.mp he with ⟨kv, _, rfl⟩
  rfl

theorem pubEvents_attrPub (topic module : String) (m : AttrMap) :
    pubEvents (attrPub topic module m) = attrPub topic module m := by
  unfold attrPub
  split <;> rfl

theorem pubEvents_netTrace (cfg : Config) : pubEvents (netTrace cfg) = [] := by
  unfold netTrace pubEvents
  rcases cfg.fetch_station.getD true <;> rcases cfg.fetch_inverter.getD true <;>
    rcases cfg.fetch_logger.getD true <;> rfl

theorem restruct_nil :
    restruct_and_separate_current_data [] = some ([], [], []) := rfl

theorem lookup_delKey_self {α : Type} (d : List (String × α)) (k : String) :
    lookup (delKey d k) k = none := by
  induction d with
  | nil => rfl
  | cons kv rest ih =>
    rw [delKey_cons]
    by_cases h : kv.1 = k
    · rw [if_pos h]; exact ih
    · rw [if_neg h, lookup_cons, if_neg h]; exact ih

theorem processTriple_mk (k : Scalar) (n : String) (v : Scalar) :
    processTriple (mkTriple k n v) = some (sanitize n, v, [("value", v)]) := rfl

theorem processTriples_map (l : List (Scalar × String × Scalar)) (acc : AttrMap) :
    processTriples (l.map (fun t => mkTriple t.1 t.2.1 t.2.2)) acc =
      some (l.foldl (fun m t => dictInsert m (sanitize t.2.1) t.2.2) acc,
            l.map (fun t => [("value", t.2.2)])) := by
  induction l generalizing acc with
  | nil => rfl
  | cons t rest ih =>
    simp only [List.map_cons, processTriples, processTriple_mk,
      List.foldl_cons, ih]

/-- On a response whose `dataList` holds well-formed non-empty triples, the
transformer returns the folded attribute map, deletes `dataList` from the
response, and strips each triple to its `value` field. -/
theorem restruct_map {data : Obj} {l : List (Scalar × String × Scalar)}
    (hdl : lookup data "dataList" =
      some (.list (l.map (fun t => mkTriple t.1 t.2.1 t.2.2))))
    (hne : l ≠ []) :
    restruct_and_separate_current_data data =
      some (buildAttr l, delKey data "dataList",
            l.map (fun t => [("value", t.2.2)])) := by
  have hemp : ((l.map (fun t => mkTriple t.1 t.2.1 t.2.2)).isEmpty) = false := by
    cases l with
    | nil => exact absurd rfl hne
    | cons t rest => rfl
  unfold restruct_and_separate_current_data
  rw [hdl]
  simp only [Val.truthy, hemp, Bool.not_false, if_true, processTriples_map,
    buildAttr]
  rfl

theorem lookupD_nil {α : Type} (k : String) (v : α) :
    lookupD ([] : List (String × α)) k v = v := rfl

theorem pyEqOne_default : pyEqOne (Val.scalar (.int 0)) = false := rfl

/-- Full characterization of `run_body` on a cycle whose fetches and
transformations succeed, phrased over the raw responses as the code received
them (a disabled module's raw response being the empty object). -/
theorem run_body_spec (env : Env) (cfg : Config) (token : Val)
    (station_data inverter_raw logger_raw : Obj)
    (inv_attr log_attr : AttrMap) (inv_mut log_mut : Obj)
    (invT logT : List Triple)
    (htt : token.truthy = true)
    (hsome : (cfg.fetch_station.getD true || cfg.fetch_inverter.getD true ||
              cfg.fetch_logger.getD true) = true)
    (hst : (if cfg.fetch_station.getD true then env.stationResponse cfg.stationId
            else some []) = some station_data)
    (hinv : (if cfg.fetch_inverter.getD true then env.deviceResponse cfg.inverterId
            else some []) = some inverter_raw)
    (hlog : (if cfg.fetch_logger.getD true then env.deviceResponse cfg.loggerId
            else some []) = some logger_raw)
    (hri : restruct_and_separate_current_data inverter_raw =
            some (inv_attr, inv_mut, invT))
    (hrl : restruct_and_separate_current_data logger_raw =
            some (log_attr, log_mut, logT)) :
    run_body env cfg token =
      (.ok, netTrace cfg ++
        (if pyEqOne (lookupD inverter_raw "deviceState" (.scalar (.int 0))) then
          (if cfg.fetch_station.getD true then
            fieldPubs cfg.mqttTopic "station" station_data else []) ++
          (if cfg.fetch_inverter.getD true then
            fieldPubs cfg.mqttTopic "inverter" inverter_raw ++
              attrPub cfg.mqttTopic "inverter" inv_attr else []) ++
          (if cfg.fetch_logger.getD true then
            fieldPubs cfg.mqttTopic "logger" logger_raw ++
              attrPub cfg.mqttTopic "logger" log_attr else [])
        else
          (if cfg.fetch_inverter.getD true then
            [Event.publish (cfg.mqttTopic ++ "/inverter/deviceState")
              (.val (lookupD inverter_raw "deviceState" (.scalar (.int 0))))]
          else []))) := by
  have hstate : lookupD inv_mut "deviceState" (Val.scalar (.int 0))
      = lookupD inverter_raw "deviceState" (Val.scalar (.int 0)) := by
    rcases restruct_mut hri with hI | hI
    · rw [hI]
    · rw [hI, lookupD_delKey _ _ _ _ (by decide)]
  have hfpI : fieldPubs cfg.mqttTopic "inverter" inv_mut
      = fieldPubs cfg.mqttTopic "inverter" inverter_raw := by
    rcases restruct_mut hri with hI | hI
    · rw [hI]
    · rw [hI, fieldPubs_delKey]
  have hfpL : fieldPubs cfg.mqttTopic "logger" log_mut
      = fieldPubs cfg.mqttTopic "logger" logger_raw := by
    rcases restruct_mut hrl with hL | hL
    · rw [hL]
    · rw [hL, fieldPubs_delKey]
  cases hfs : cfg.fetch_station.getD true <;>
    cases hfi : cfg.fetch_inverter.getD true <;>
    cases hfl : cfg.fetch_logger.getD true
  -- false false false: contradicts hsome
  · rw [hfs, hfi, hfl] at hsome
    exact absurd hsome (by decide)
  -- false false true
  · obtain rfl : inverter_raw = [] := by simpa [hfi] using hinv.symm
    have hlog' : env.deviceResponse cfg.loggerId = some logger_raw := by
      simpa [hfl] using hlog
    simp [run_body, htt, hfs, hfi, hfl, hlog', hrl, netTrace, restruct_nil,
      lookupD_nil, pyEqOne_default, hstate, hfpI, hfpL, List.append_assoc]
  -- false true false
  · obtain rfl : logger_raw = [] := by simpa [hfl] using hlog.symm
    have hinv' : env.deviceResponse cfg.inverterId = some inverter_raw := by
      simpa [hfi] using hinv
    rcases hpy : pyEqOne (lookupD inverter_raw "deviceState" (.scalar (.int 0))) <;>
      simp [run_body, htt, hfs, hfi, hfl, hinv', hri, netTrace, restruct_nil,
        hstate, hfpI, hfpL, hpy, List.append_assoc]
  -- false true true
  · have hinv' : env.deviceResponse cfg.inverterId = some inverter_raw := by
      simpa [hfi] using hinv
    have hlog' : env.deviceResponse cfg.loggerId = some logger_raw := by
      simpa [hfl] using hlog
    rcases hpy : pyEqOne (lookupD inverter_raw "deviceState" (.scalar (.int 0))) <;>
      simp [run_body, htt, hfs, hfi, hfl, hinv', hlog', hri, hrl, netTrace,
        hstate, hfpI, hfpL, hpy, List.append_assoc]
  -- true false false
  · obtain rfl : inverter_raw = [] := by simpa [hfi] using hinv.symm
    have hst' : env.stationResponse cfg.stationId = some station_data := by
      simpa [hfs] using hst
    simp [run_body, htt, hfs, hfi, hfl, hst', netTrace, restruct_nil,
      lookupD_nil, pyEqOne_default, hstate, hfpI, hfpL, List.append_assoc]
  -- true false true
  · obtain rfl : inverter_raw = [] := by simpa [hfi] using hinv.symm
    have hst' : env.stationResponse cfg.stationId = some station_data := by
      simpa [hfs] using hst
    have hlog' : env.deviceResponse cfg.loggerId = some logger_raw := by
      simpa [hfl] using hlog
    simp [run_body, htt, hfs, hfi, hfl, hst', hlog', hrl, netTrace, restruct_nil,
      lookupD_nil, pyEqOne_default, hstate, hfpI, hfpL, List.append_assoc]
  -- true true false
  · obtain rfl : logger_raw = [] := by simpa [hfl] using hlog.symm
    have hst' : env.stationResponse cfg.stationId = some station_data := by
      simpa [hfs] using hst
    have hinv' : env.deviceResponse cfg.inverterId = some inverter_raw := by
      simpa [hfi] using hinv
    rcases hpy : pyEqOne (lookupD inverter_raw "deviceState" (.scalar (.int 0))) <;>
      simp [run_body, htt, hfs, hfi, hfl, hst', hinv', hri, netTrace, restruct_nil,
        hstate, hfpI, hfpL, hpy, List.append_assoc]
  -- true true true
  · have hst' : env.stationResponse cfg.stationId = some station_data := by
      simpa [hfs] using hst
    have hinv' : env.deviceResponse cfg.inverterId = some inverter_raw := by
      simpa [hfi] using hinv
    have hlog' : env.deviceResponse cfg.loggerId = some logger_raw := by
      simpa [hfl] using hlog
    rcases hpy : pyEqOne (lookupD inverter_raw "deviceState" (.scalar (.int 0))) <;>
      simp [run_body, htt, hfs, hfi, hfl, hst', hinv', hlog', hri, hrl, netTrace,
        hstate, hfpI, hfpL, hpy, List.append_assoc]

/-! ## Claim theorems -/

/-- C6: for every response, the transformer maps each `{key, name, value}`
triple of the nested `dataList` to an entry from the space-sanitized name to
the triple's value unchanged, discarding `key` (covering the empty list,
whose result is the empty mapping), and yields
`({}, data unchanged)` when `dataList` is absent. -/
theorem C6_transformer (data : Obj) (l : List (Scalar × String × Scalar)) :
    (lookup data "dataList" =
        some (.list (l.map (fun t => mkTriple t.1 t.2.1 t.2.2))) →
      (restruct_and_separate_current_data data).map (fun r => r.1) =
        some (buildAttr l)) ∧
    (lookup data "dataList" = none →
      restruct_and_separate_current_data data = some ([], data, [])) := by
  constructor
  · intro hdl
    cases l with
    | nil =>
      unfold restruct_and_separate_current_data
      rw [hdl]
      rfl
    | cons t rest =>
      rw [restruct_map hdl (by simp)]
      rfl
  · intro hdl
    unfold restruct_and_separate_current_data
    rw [hdl]

/-- Witness for C6: the transformer on a concrete `dataList` entry named
"Today Energy", on the empty response, and on an empty `dataList`. -/
theorem C6_transformer_witness :
    (restruct_and_separate_current_data invOnline).map (fun r => r.1) =
      some (buildAttr [((.int 1 : Scalar), "Today Energy",
        (.str "12.3" : Scalar))]) ∧
    restruct_and_separate_current_data [] = some ([], [], []) ∧
    (restruct_and_separate_current_data [("dataList", .list [])]).map
      (fun r => r.1) = some (buildAttr []) :=
  ⟨(C6_transformer invOnline [(.int 1, "Today Energy", .str "12.3")]).1
      (by decide),
   (C6_transformer [] []).2 rfl,
   (C6_transformer [("dataList", .list [])] []).1 (by decide)⟩

/-- C10: the transformer consumes its argument: with a non-empty well-formed
`dataList`, the returned response has the `dataList` field removed (so the
online-branch iteration never encounters it), every returned triple has its
`key` and `name` fields removed (only `value` remains), and every other
top-level field of the response is unchanged. -/
theorem C10_mutation (data : Obj) (l : List (Scalar × String × Scalar))
    (hdl : lookup data "dataList" =
      some (.list (l.map (fun t => mkTriple t.1 t.2.1 t.2.2))))
    (hne : l ≠ []) :
    restruct_and_separate_current_data data =
      some (buildAttr l, delKey data "dataList",
            l.map (fun t => [("value", t.2.2)])) ∧
    lookup (delKey data "dataList") "dataList" = none ∧
    (∀ k, k ≠ "dataList" →
      lookup (delKey data "dataList") k = lookup data k) :=
  ⟨restruct_map hdl hne, lookup_delKey_self data "dataList",
   fun k hk => lookup_delKey data k "dataList" hk⟩

/-- Witness for C10: the concrete online inverter response. -/
theorem C10_mutation_witness :
    restruct_and_separate_current_data invOnline =
      some (buildAttr [((.int 1 : Scalar), "Today Energy",
              (.str "12.3" : Scalar))],
            delKey invOnline "dataList",
            [[("value", (.str "12.3" : Scalar))]]) ∧
    lookup (delKey invOnline "dataList") "dataList" = none ∧
    lookup (delKey invOnline "dataList") "deviceState" =
      lookup invOnline "deviceState" :=
  have h := C10_mutation invOnline
    [(.int 1, "Today Energy", .str "12.3")] (by decide) (by decide)
  ⟨h.1, h.2.1, h.2.2 "deviceState" (by decide)⟩

/-- C3: when a truthy token is cached and the current time is strictly below
the cached expiry minus the 300-second safety buffer, `get_token` returns the
cached token unchanged, leaves the cache unchanged, and makes no network
call; in every other situation (including an expiry only 100 seconds away)
it issues the authentication request. -/
theorem C3_token_cache (env : Env) (st : TokenCache) :
    (st.cached_token.truthy = true → env.now < st.token_expiry - 300 →
      get_token env st = (.ok st.cached_token, st, [])) ∧
    (¬(st.cached_token.truthy = true ∧ env.now < st.token_expiry - 300) →
      (get_token env st).2.2 = [Event.net .auth]) := by
  constructor
  · intro h1 h2
    have hc : (st.cached_token.truthy &&
        decide (env.now < st.token_expiry - 300)) = true := by
      rw [h1]; simpa using h2
    unfold get_token
    rw [if_pos hc]
  · exact get_token_miss

/-- Witness for C3: a cache-hit on a far-future expiry, and a
re-authentication when the expiry is 100 seconds away (inside the buffer). -/
theorem C3_token_cache_witness :
    get_token envOnline cacheValid =
      (.ok cacheValid.cached_token, cacheValid, []) ∧
    (get_token envOnline cacheNear).2.2 = [Event.net .auth] :=
  ⟨(C3_token_cache envOnline cacheValid).1 (by decide) (by decide),
   (C3_token_cache envOnline cacheNear).2 (by decide)⟩

/-- C8: on a cache miss, when the authentication call fails (network or
decode error) or the response lacks `access_token`, `get_token` terminates
the process with exit code 1 after exactly one authentication attempt (no
retry) and leaves the token cache unchanged. -/
theorem C8_auth_failure (env : Env) (st : TokenCache)
    (hmiss : ¬(st.cached_token.truthy = true ∧ env.now < st.token_expiry - 300))
    (hfail : env.authResponse = none ∨
      ∃ d, env.authResponse = some d ∧ lookup d "access_token" = none) :
    get_token env st = (.exit1, st, [Event.net .auth]) := by
  unfold get_token
  rw [if_neg (by rw [cache_cond_false hmiss]; exact Bool.false_ne_true)]
  rcases hfail with hnone | ⟨d, hd, hlk⟩
  · rw [hnone]
  · rw [hd]
    dsimp only
    rw [hlk]

/-- Witness for C8: a failing authentication call, and a response without a
token field, each from an empty cache. -/
theorem C8_auth_failure_witness :
    get_token envAuthDown TokenCache.init =
      (.exit1, TokenCache.init, [Event.net .auth]) ∧
    get_token envNoToken TokenCache.init =
      (.exit1, TokenCache.init, [Event.net .auth]) :=
  ⟨C8_auth_failure envAuthDown TokenCache.init (by decide) (Or.inl rfl),
   C8_auth_failure envNoToken TokenCache.init (by decide)
     (Or.inr ⟨[("msg", .scalar (.str "denied"))], rfl, by decide⟩)⟩

/-- C4: with both coordinates exactly 0.0 the Daylight Gate returns true for
every `now`; with any other coordinates it returns true exactly when
`sunrise - margin  ≤ now ≤ sunset + margin` (margin = configured minutes
times 60, default 30), inclusive on both ends — in particular it is true at
`now = sunrise - margin` whenever the window is non-degenerate. -/
theorem C4_daylight_gate (cfg : Config) (sunrise sunset now : Int) :
    ((cfg.latitude.getD 0 = 0 ∧ cfg.longitude.getD 0 = 0) →
      is_sun_active cfg sunrise sunset now = true) ∧
    (¬(cfg.latitude.getD 0 = 0 ∧ cfg.longitude.getD 0 = 0) →
      (is_sun_active cfg sunrise sunset now = true ↔
        sunrise - cfg.sunmarginminutes.getD 30 * 60 ≤ now ∧
          now ≤ sunset + cfg.sunmarginminutes.getD 30 * 60)) ∧
    (¬(cfg.latitude.getD 0 = 0 ∧ cfg.longitude.getD 0 = 0) →
      sunrise - cfg.sunmarginminutes.getD 30 * 60 ≤
        sunset + cfg.sunmarginminutes.getD 30 * 60 →
      is_sun_active cfg sunrise sunset
        (sunrise - cfg.sunmarginminutes.getD 30 * 60) = true) := by
  refine ⟨?_, ?_, ?_⟩
  · rintro ⟨h1, h2⟩
    have hc : (cfg.latitude.getD 0 == 0 && cfg.longitude.getD 0 == 0) = true := by
      rw [h1, h2]; rfl
    unfold is_sun_active
    rw [if_pos hc]
  · intro h
    have hc : (cfg.latitude.getD 0 == 0 && cfg.longitude.getD 0 == 0) = false := by
      rcases not_and_or.mp h with hA | hA <;> simp [hA]
    unfold is_sun_active
    rw [if_neg (by rw [hc]; exact Bool.false_ne_true)]
    simp
  · intro h hle
    have hc : (cfg.latitude.getD 0 == 0 && cfg.longitude.getD 0 == 0) = false := by
      rcases not_and_or.mp h with hA | hA <;> simp [hA]
    unfold is_sun_active
    rw [if_neg (by rw [hc]; exact Bool.false_ne_true)]
    simp [hle]

/-- Witness for C4: the (0, 0) sentinel, a window membership at a real
location, and the lower boundary instant. -/
theorem C4_daylight_gate_witness :
    is_sun_active cfgAllOn 100 200 5000 = true ∧
    is_sun_active cfgLoc 36000 72000 50000 = true ∧
    is_sun_active cfgLoc 36000 72000
      (36000 - cfgLoc.sunmarginminutes.getD 30 * 60) = true :=
  ⟨(C4_daylight_gate cfgAllOn 100 200 5000).1 (by decide),
   ((C4_daylight_gate cfgLoc 36000 72000 50000).2.1 (by decide)).mpr
     (by decide),
   (C4_daylight_gate cfgLoc 36000 72000 0).2.2 (by decide) (by decide)⟩

/-- C9: a daemon tick terminates the process with exit code 1 on a
configuration-load failure, a gate failure, or a pipeline cycle that does
not complete normally; a tick without error sleeps for the configured
interval whether or not the gate allowed the cycle to run. -/
theorem C9_daemon_tick (tenv : TickEnv) (interval : Int) (st : TokenCache) :
    (tenv.config = none → daemon_tick tenv interval st = (.exit1, st, [])) ∧
    (∀ cfg, tenv.config = some cfg →
      (is_sun_active_opt cfg tenv.sunTimes tenv.runEnv.now = none →
        (daemon_tick tenv interval st).1 = .exit1) ∧
      (is_sun_active_opt cfg tenv.sunTimes tenv.runEnv.now = some false →
        daemon_tick tenv interval st = (.slept interval, st, [])) ∧
      (is_sun_active_opt cfg tenv.sunTimes tenv.runEnv.now = some true →
        (single_run tenv.runEnv cfg st).1 = .ok →
        (daemon_tick tenv interval st).1 = .slept interval) ∧
      (is_sun_active_opt cfg tenv.sunTimes tenv.runEnv.now = some true →
        (single_run tenv.runEnv cfg st).1 ≠ .ok →
        (daemon_tick tenv interval st).1 = .exit1)) := by
  constructor
  · intro h
    unfold daemon_tick
    rw [h]
  · intro cfg hcfg
    refine ⟨?_, ?_, ?_, ?_⟩
    · intro hg
      unfold daemon_tick
      rw [hcfg]
      dsimp only
      rw [hg]
    · intro hg
      unfold daemon_tick
      rw [hcfg]
      dsimp only
      rw [hg]
    · intro hg hok
      unfold daemon_tick
      rw [hcfg]
      dsimp only
      rw [hg]
      dsimp only
      rcases hsr : single_run tenv.runEnv cfg st with ⟨o, st1, tr⟩
      rw [hsr] at hok
      cases o
      · rfl
      · exact absurd hok (by simp)
      · exact absurd hok (by simp)
    · intro hg hne
      unfold daemon_tick
      rw [hcfg]
      dsimp only
      rw [hg]
      dsimp only
      rcases hsr : single_run tenv.runEnv cfg st with ⟨o, st1, tr⟩
      rw [hsr] at hne
      cases o
      · exact absurd rfl hne
      · rfl
      · rfl

/-- Witness for C9: a failing configuration load, a failing gate
computation, a night tick that sleeps without running a cycle, a successful
daytime tick, and a tick whose cycle dies on authentication. -/
theorem C9_daemon_tick_witness :
    daemon_tick ⟨none, none, envOnline⟩ 300 TokenCache.init =
      (.exit1, TokenCache.init, []) ∧
    (daemon_tick ⟨some cfgLoc, none, envOnline⟩ 300 TokenCache.init).1 =
      .exit1 ∧
    daemon_tick ⟨some cfgLoc, some (36000, 72000), envOnline⟩ 300
      TokenCache.init = (.slept 300, TokenCache.init, []) ∧
    (daemon_tick ⟨some cfgAllOn, some (36000, 72000), envOnline⟩ 300
      TokenCache.init).1 = .slept 300 ∧
    (daemon_tick ⟨some cfgAllOn, some (36000, 72000), envAuthDown⟩ 300
      TokenCache.init).1 = .exit1 :=
  ⟨(C9_daemon_tick ⟨none, none, envOnline⟩ 300 TokenCache.init).1 rfl,
   ((C9_daemon_tick ⟨some cfgLoc, none, envOnline⟩ 300 TokenCache.init).2
      cfgLoc rfl).1 (by decide),
   ((C9_daemon_tick ⟨some cfgLoc, some (36000, 72000), envOnline⟩ 300
      TokenCache.init).2 cfgLoc rfl).2.1 (by decide),
   ((C9_daemon_tick ⟨some cfgAllOn, some (36000, 72000), envOnline⟩ 300
      TokenCache.init).2 cfgAllOn rfl).2.2.1 (by decide) (by decide),
   ((C9_daemon_tick ⟨some cfgAllOn, some (36000, 72000), envAuthDown⟩ 300
      TokenCache.init).2 cfgAllOn rfl).2.2.2 (by decide) (by decide)⟩

/-- C1 is false as stated: with all three fetch toggles disabled but an
empty token cache, `single_run` still performs one network call — the
authentication request issued by `get_token`, which runs before the toggle
check. -/
theorem C1_counterexample :
    netEvents (single_run envOnline cfgAllOff TokenCache.init).2.2 ≠ [] := by
  decide

/-- C1 (amended): with all three fetch toggles disabled, a cycle performs
zero publishes and returns right after the toggle check; the only network
call it can make is the token acquisition, and when the cached token is
valid there is no network call at all and the cycle is a no-op. -/
theorem C1_all_disabled (env : Env) (cfg : Config) (st : TokenCache)
    (hs : cfg.fetch_station.getD true = false)
    (hi : cfg.fetch_inverter.getD true = false)
    (hl : cfg.fetch_logger.getD true = false) :
    pubEvents (single_run env cfg st).2.2 = [] ∧
    (netEvents (single_run env cfg st).2.2 = [] ∨
      netEvents (single_run env cfg st).2.2 = [Event.net .auth]) ∧
    (st.cached_token.truthy = true → env.now < st.token_expiry - 300 →
      single_run env cfg st = (.ok, st, [])) := by
  have htr : (single_run env cfg st).2.2 = (get_token env st).2.2 := by
    rcases hgt : get_token env st with ⟨res, st1, tr0⟩
    cases res with
    | exit1 =>
      unfold single_run
      rw [hgt]
    | ok token =>
      rw [single_run_ok hgt, run_body_disabled env cfg token hs hi hl]
      simp
  refine ⟨?_, ?_, ?_⟩
  · rw [htr, pubEvents_get_token]
  · rw [htr]
    rcases get_token_trace env st with h | h
    · rw [h]; exact Or.inl rfl
    · rw [h]; exact Or.inr rfl
  · intro h1 h2
    have hc : (st.cached_token.truthy &&
        decide (env.now < st.token_expiry - 300)) = true := by
      rw [h1]; simpa using h2
    have hgt : get_token env st = (.ok st.cached_token, st, []) := by
      unfold get_token
      rw [if_pos hc]
    rw [single_run_ok hgt,
      run_body_disabled env cfg st.cached_token hs hi hl]
    rfl

/-- Witness for C1 (amended): the all-disabled configuration with a valid
cache is a complete no-op, and with an empty cache it still publishes
nothing. -/
theorem C1_all_disabled_witness :
    pubEvents (single_run envOnline cfgAllOff TokenCache.init).2.2 = [] ∧
    single_run envOnline cfgAllOff cacheValid = (.ok, cacheValid, []) :=
  ⟨(C1_all_disabled envOnline cfgAllOff TokenCache.init rfl rfl rfl).1,
   (C1_all_disabled envOnline cfgAllOff cacheValid rfl rfl rfl).2.2
     (by decide) (by decide)⟩

/-- C2: in a cycle whose raw inverter response has `deviceState == 1`, the
publishes are exactly, for each enabled module, the top-level fields of that
module's raw response whose value is not null and whose key is outside
`{code, msg, requestId, success, dataList}`, under
`<prefix>/<module>/<field>`, followed (for inverter and logger) by the
attribute map as one JSON-object message under `<prefix>/<module>/attributes`
when it is non-empty.  A disabled module's raw response is the empty object. -/
theorem C2_online_branch (env : Env) (cfg : Config) (st st1 : TokenCache)
    (token : Val) (tr0 : List Event)
    (station_data inverter_raw logger_raw : Obj)
    (inv_attr log_attr : AttrMap) (inv_mut log_mut : Obj)
    (invT logT : List Triple)
    (htok : get_token env st = (.ok token, st1, tr0))
    (htt : token.truthy = true)
    (hst : (if cfg.fetch_station.getD true then env.stationResponse cfg.stationId
            else some []) = some station_data)
    (hinv : (if cfg.fetch_inverter.getD true then env.deviceResponse cfg.inverterId
            else some []) = some inverter_raw)
    (hlog : (if cfg.fetch_logger.getD true then env.deviceResponse cfg.loggerId
            else some []) = some logger_raw)
    (hri : restruct_and_separate_current_data inverter_raw =
            some (inv_attr, inv_mut, invT))
    (hrl : restruct_and_separate_current_data logger_raw =
            some (log_attr, log_mut, logT))
    (hpy : pyEqOne (lookupD inverter_raw "deviceState" (.scalar (.int 0))) = true) :
    pubEvents (single_run env cfg st).2.2 =
      (if cfg.fetch_station.getD true then
        fieldPubs cfg.mqttTopic "station" station_data else []) ++
      (if cfg.fetch_inverter.getD true then
        fieldPubs cfg.mqttTopic "inverter" inverter_raw ++
          attrPub cfg.mqttTopic "inverter" inv_attr else []) ++
      (if cfg.fetch_logger.getD true then
        fieldPubs cfg.mqttTopic "logger" logger_raw ++
          attrPub cfg.mqttTopic "logger" log_attr else []) := by
  have h0 : pubEvents tr0 = [] := by
    have h := pubEvents_get_token env st
    rw [htok] at h
    exact h
  have hsome : (cfg.fetch_station.getD true || cfg.fetch_inverter.getD true ||
      cfg.fetch_logger.getD true) = true := by
    by_contra hn
    have hb : (cfg.fetch_station.getD true || cfg.fetch_inverter.getD true ||
        cfg.fetch_logger.getD true) = false := by simpa using hn
    simp only [Bool.or_eq_false_iff] at hb
    obtain rfl : inverter_raw = [] := by simpa [hb.1.2] using hinv.symm
    rw [lookupD_nil, pyEqOne_default] at hpy
    exact Bool.false_ne_true hpy
  rw [single_run_ok htok,
    run_body_spec env cfg token station_data inverter_raw logger_raw
      inv_attr log_attr inv_mut log_mut invT logT htt hsome hst hinv hlog
      hri hrl]
  simp only [pubEvents_append, h0, List.nil_append, pubEvents_netTrace, hpy,
    if_true]
  cases hfs : cfg.fetch_station.getD true <;>
    cases hfi : cfg.fetch_inverter.getD true <;>
    cases hfl : cfg.fetch_logger.getD true <;>
    simp [pubEvents_append, pubEvents_fieldPubs, pubEvents_attrPub,
      pubEvents_nil]

/-- Witness for C2: a full concrete online cycle — the station publishes its
non-null, non-discarded field, the inverter publishes its fields plus its
attribute map, and the logger publishes its field. -/
theorem C2_online_branch_witness :
    pubEvents (single_run envOnline cfgAllOn TokenCache.init).2.2 =
      [Event.publish "solarmanpv/station/generationPower"
          (.val (.scalar (.int 3400))),
        Event.publish "solarmanpv/inverter/deviceState"
          (.val (.scalar (.int 1))),
        Event.publish "solarmanpv/inverter/power"
          (.val (.scalar (.int 1500))),
        Event.publish "solarmanpv/inverter/attributes"
          (.jsonObj [("Today_Energy", .str "12.3")]),
        Event.publish "solarmanpv/logger/sn"
          (.val (.scalar (.str "LOG1")))] :=
  (C2_online_branch envOnline cfgAllOn TokenCache.init
    ⟨.scalar (.str "tok"), 5184999⟩ (.scalar (.str "tok")) [Event.net .auth]
    stationResp invOnline loggerResp
    [("Today_Energy", .str "12.3")] [] invOnlineMut loggerResp
    [[("value", .str "12.3")]] []
    (by decide) (by decide) (by decide) (by decide) (by decide) (by decide)
    (by decide) (by decide)).trans (by decide)

/-- C5: in a cycle whose raw inverter response has `deviceState != 1`, the
only publish is the inverter's `deviceState` value under
`<prefix>/inverter/deviceState`, and only when the inverter module is
enabled; no station fields, logger fields, or attribute maps are
published. -/
theorem C5_offline_branch (env : Env) (cfg : Config) (st st1 : TokenCache)
    (token : Val) (tr0 : List Event)
    (station_data inverter_raw logger_raw : Obj)
    (inv_attr log_attr : AttrMap) (inv_mut log_mut : Obj)
    (invT logT : List Triple)
    (htok : get_token env st = (.ok token, st1, tr0))
    (htt : token.truthy = true)
    (hst : (if cfg.fetch_station.getD true then env.stationResponse cfg.stationId
            else some []) = some station_data)
    (hinv : (if cfg.fetch_inverter.getD true then env.deviceResponse cfg.inverterId
            else some []) = some inverter_raw)
    (hlog : (if cfg.fetch_logger.getD true then env.deviceResponse cfg.loggerId
            else some []) = some logger_raw)
    (hri : restruct_and_separate_current_data inverter_raw =
            some (inv_attr, inv_mut, invT))
    (hrl : restruct_and_separate_current_data logger_raw =
            some (log_attr, log_mut, logT))
    (hpy : pyEqOne (lookupD inverter_raw "deviceState" (.scalar (.int 0))) = false) :
    pubEvents (single_run env cfg st).2.2 =
      (if cfg.fetch_inverter.getD true then
        [Event.publish (cfg.mqttTopic ++ "/inverter/deviceState")
          (.val (lookupD inverter_raw "deviceState" (.scalar (.int 0))))]
      else []) := by
  have h0 : pubEvents tr0 = [] := by
    have h := pubEvents_get_token env st
    rw [htok] at h
    exact h
  by_cases hsome : (cfg.fetch_station.getD true || cfg.fetch_inverter.getD true ||
      cfg.fetch_logger.getD true) = true
  · rw [single_run_ok htok,
      run_body_spec env cfg token station_data inverter_raw logger_raw
        inv_attr log_attr inv_mut log_mut invT logT htt hsome hst hinv hlog
        hri hrl]
    simp only [pubEvents_append, h0, List.nil_append, pubEvents_netTrace, hpy,
      Bool.false_eq_true, if_false]
    cases hfi : cfg.fetch_inverter.getD true <;>
      simp [pubEvents_nil, pubEvents, Event.isPub]
  · have hb : (cfg.fetch_station.getD true || cfg.fetch_inverter.getD true ||
        cfg.fetch_logger.getD true) = false := by simpa using hsome
    simp only [Bool.or_eq_false_iff] at hb
    rw [single_run_ok htok,
      run_body_disabled env cfg token hb.1.1 hb.1.2 hb.2, hb.1.2]
    simp [h0]

/-- Witness for C5: a concrete offline cycle publishes only the inverter's
`deviceState` of 0. -/
theorem C5_offline_branch_witness :
    pubEvents (single_run envOffline cfgAllOn TokenCache.init).2.2 =
      [Event.publish ("solarmanpv" ++ "/inverter/deviceState")
        (.val (lookupD invOffline "deviceState" (.scalar (.int 0))))] :=
  (C5_offline_branch envOffline cfgAllOn TokenCache.init
    ⟨.scalar (.str "tok"), 5184999⟩ (.scalar (.str "tok")) [Event.net .auth]
    stationResp invOffline loggerResp
    [] [] invOffline loggerResp [] []
    (by decide) (by decide) (by decide) (by decide) (by decide) (by decide)
    (by decide) (by decide)).trans (by decide)

/-- C7: when the inverter module is disabled the raw inverter response is the
empty object, `deviceState` defaults to 0, and the cycle takes the offline
branch: nothing at all is published, even though station and logger modules
may be enabled and return data. -/
theorem C7_inverter_disabled (env : Env) (cfg : Config) (st st1 : TokenCache)
    (token : Val) (tr0 : List Event)
    (station_data logger_raw : Obj) (log_attr : AttrMap) (log_mut : Obj)
    (logT : List Triple)
    (htok : get_token env st = (.ok token, st1, tr0))
    (htt : token.truthy = true)
    (hfi : cfg.fetch_inverter.getD true = false)
    (hst : (if cfg.fetch_station.getD true then env.stationResponse cfg.stationId
            else some []) = some station_data)
    (hlog : (if cfg.fetch_logger.getD true then env.deviceResponse cfg.loggerId
            else some []) = some logger_raw)
    (hrl : restruct_and_separate_current_data logger_raw =
            some (log_attr, log_mut, logT)) :
    pubEvents (single_run env cfg st).2.2 = [] := by
  have h0 : pubEvents tr0 = [] := by
    have h := pubEvents_get_token env st
    rw [htok] at h
    exact h
  have hinv : (if cfg.fetch_inverter.getD true then
      env.deviceResponse cfg.inverterId else some []) = some ([] : Obj) := by
    rw [hfi]
    rfl
  by_cases hsome : (cfg.fetch_station.getD true || cfg.fetch_inverter.getD true ||
      cfg.fetch_logger.getD true) = true
  · rw [single_run_ok htok,
      run_body_spec env cfg token station_data [] logger_raw
        [] log_attr [] log_mut [] logT htt hsome hst hinv hlog
        restruct_nil hrl]
    simp [pubEvents_append, h0, pubEvents_netTrace, lookupD_nil,
      pyEqOne_default, hfi, pubEvents_nil]
  · have hb : (cfg.fetch_station.getD true || cfg.fetch_inverter.getD true ||
        cfg.fetch_logger.getD true) = false := by simpa using hsome
    simp only [Bool.or_eq_false_iff] at hb
    rw [single_run_ok htok,
      run_body_disabled env cfg token hb.1.1 hb.1.2 hb.2]
    simp [h0]

/-- Witness for C7: inverter disabled, station and logger enabled and
returning data — the cycle publishes nothing. -/
theorem C7_inverter_disabled_witness :
    pubEvents (single_run envOnline cfgNoInv TokenCache.init).2.2 = [] :=
  C7_inverter_disabled envOnline cfgNoInv TokenCache.init
    ⟨.scalar (.str "tok"), 5184999⟩ (.scalar (.str "tok")) [Event.net .auth]
    stationResp loggerResp [] loggerResp []
    (by decide) (by decide) (by decide) (by decide) (by decide) (by decide)

end Solarman
